import Mathlib

/-!
Shallow embedding of `src/My-Code/utils.py`.

The repository holds a single utility, `get_screen`, which renders a gym
environment to a pixel array, resizes it, converts it to a tensor, permutes
the axes with `permute(2, 1, 0)`, prepends a batch dimension with
`unsqueeze(0)` and places the result on a device.  Arrays and tensors are
embedded as a shape list, an element-type tag and a total valuation on index
lists (entries outside the shape are irrelevant); pixel intensities are
modelled as rationals.  The three external collaborators (the environment
renderer, `skimage.transform.resize` and the torch tensor operations) are
modelled from the interface contracts the specification states for them, and
each fallible step runs in `Except` so that raised errors propagate.
-/

/-- Element-type tag carried by arrays and tensors (metadata only; the values
themselves are modelled as rationals). -/
inductive DType where
  | uint8
  | float32
  | float64
deriving DecidableEq

/-- An abstract compute device: an opaque numeric label together with whether
the device can actually be resolved at run time. -/
structure Device where
  label : ℕ
  available : Bool
deriving DecidableEq

/-- Errors raised by the external collaborators; `get_screen` itself raises,
catches and translates nothing. -/
inductive PyError where
  | envError (code : ℕ)
  | valueError (code : ℕ)
  | deviceError (code : ℕ)
deriving DecidableEq

/-- A numpy-style array: a shape, an element type and the value stored at
each index list. -/
structure NpArray where
  shape : List ℕ
  dtype : DType
  val : List ℕ → ℚ

/-- A torch-style tensor: like an array, but also resident on a device. -/
structure TorchTensor where
  shape : List ℕ
  dtype : DType
  device : Device
  val : List ℕ → ℚ

/-- The mode selector accepted by a gym environment render call. -/
inductive RenderMode where
  | rgb_array
  | human
deriving DecidableEq

/-- A gym environment handle: exposes a render operation taking a mode
selector and returning a pixel array, or raising whatever error the
environment defines. -/
structure Env where
  render : RenderMode → Except PyError NpArray

/-- Modelled from the spec: the smoothing (anti-aliasing) pre-pass the resize
collaborator applies when anti-aliasing is requested.  Its exact filter is
irrelevant to every claim; a small neighbourhood average stands in for it. -/
def gaussianSmooth (a : NpArray) : NpArray :=
  { a with
    dtype := DType.float64
    val := fun idx =>
      (a.val idx
        + a.val [idx.getD 0 0 + 1, idx.getD 1 0, idx.getD 2 0]
        + a.val [idx.getD 0 0, idx.getD 1 0 + 1, idx.getD 2 0]) / 3 }

/-- Modelled from the spec: the smoothing-free interpolation core of the
resize collaborator.  It maps the spatial axes onto exactly `(h, w)` by
coordinate scaling, leaves the channel axis unchanged and yields floating
values. -/
def resizeCore (a : NpArray) (h w : ℕ) : NpArray :=
  { shape := [h, w, a.shape.getD 2 0]
    dtype := DType.float64
    val := fun idx =>
      a.val [idx.getD 0 0 * a.shape.getD 0 0 / h,
             idx.getD 1 0 * a.shape.getD 1 0 / w,
             idx.getD 2 0] }

/-- Modelled from the spec: `skimage.transform.resize`, the external resize
collaborator.  It accepts a target `(height, width)` pair and a flag
disabling anti-aliasing; a zero target dimension fails inside the resize
step with the error that step raises. -/
def resize (a : NpArray) (output_shape : ℕ × ℕ) (anti_aliasing : Bool) :
    Except PyError NpArray :=
  if output_shape.1 = 0 ∨ output_shape.2 = 0 then
    Except.error (PyError.valueError 0)
  else
    Except.ok (resizeCore (if anti_aliasing then gaussianSmooth a else a)
      output_shape.1 output_shape.2)

/-- The tensor library's default floating element type. -/
def torch.defaultDType : DType := DType.float32

/-- The host device a freshly constructed tensor resides on. -/
def torch.cpu : Device := { label := 0, available := true }

/-- Modelled from the spec: the bare tensor constructor of the tensor
library.  It converts an array to a tensor of the library's default element
type, resident on the host, with the values and dimension order preserved. -/
def torch.Tensor (a : NpArray) : TorchTensor :=
  { shape := a.shape
    dtype := torch.defaultDType
    device := torch.cpu
    val := a.val }

/-- Modelled from the spec: axis permutation of the tensor library.  The new
shape at position `d` is the old shape at position `ps d`, and the value at a
new index is read from the old index obtained by inverting `ps`. -/
def TorchTensor.permute (t : TorchTensor) (ps : List ℕ) : TorchTensor :=
  { t with
    shape := ps.map (fun p => t.shape.getD p 0)
    val := fun idx =>
      t.val ((List.range t.shape.length).map
        (fun d => idx.getD (ps.indexOf d) 0)) }

/-- Modelled from the spec: insertion of a new dimension of size 1 at
position `d`. -/
def TorchTensor.unsqueeze (t : TorchTensor) (d : ℕ) : TorchTensor :=
  { t with
    shape := t.shape.take d ++ 1 :: t.shape.drop d
    val := fun idx => t.val (idx.take d ++ idx.drop (d + 1)) }

/-- Modelled from the spec: device placement.  Placement on a resolvable
device returns the device-resident tensor unchanged otherwise; placement on
an unresolvable device fails with the error that step raises. -/
def TorchTensor.to (t : TorchTensor) (d : Device) : Except PyError TorchTensor :=
  if d.available then Except.ok { t with device := d }
  else Except.error (PyError.deviceError d.label)

/-- The embedding of `get_screen` from `src/My-Code/utils.py`:

    k = env.render(mode='rgb_array')
    k = resize(k, (h, w), anti_aliasing=False)
    k = torch.Tensor(k)
    k = k.permute(2,1,0).unsqueeze(0)
    k = k.to(device)
    return k
-/
def get_screen (env : Env) (device : Device) (h : ℕ := 80) (w : ℕ := 80) :
    Except PyError TorchTensor := do
  let k ← env.render RenderMode.rgb_array
  let k ← resize k (h, w) false
  let k := torch.Tensor k
  let k := (k.permute [2, 1, 0]).unsqueeze 0
  k.to device

/-- Unfolding of the monadic pipeline of `get_screen` into explicit binds. -/
theorem get_screen_eq (env : Env) (device : Device) (h w : ℕ) :
    get_screen env device h w =
      Except.bind (env.render RenderMode.rgb_array) (fun k =>
        Except.bind (resize k (h, w) false) (fun k =>
          (((torch.Tensor k).permute [2, 1, 0]).unsqueeze 0).to device)) := rfl

/-- A concrete 4 by 6 RGB test frame with pairwise distinct pixel values. -/
def testImage : NpArray :=
  { shape := [4, 6, 3]
    dtype := DType.uint8
    val := fun idx => ((idx.getD 0 0) * 37 + (idx.getD 1 0) * 11 + idx.getD 2 0 : ℚ) }

/-- A deterministic environment whose render always yields `testImage`. -/
def testEnv : Env := { render := fun _ => Except.ok testImage }

/-- A second environment agreeing with `testEnv` on rgb_array renders only. -/
def testEnv2 : Env :=
  { render := fun m =>
      match m with
      | RenderMode.rgb_array => Except.ok testImage
      | RenderMode.human => Except.error (PyError.envError 3) }

/-- An environment whose render raises. -/
def badEnv : Env := { render := fun _ => Except.error (PyError.envError 7) }

/-- A concrete resolvable device. -/
def cpuDev : Device := { label := 0, available := true }

/-- The tensor a successful pipeline run over array `a` produces. -/
def pipeTensor (a : NpArray) (dev : Device) (h w : ℕ) : TorchTensor :=
  { (((torch.Tensor (resizeCore a h w)).permute [2, 1, 0]).unsqueeze 0) with
    device := dev }

/-- C1: for an environment rendering an (H0, W0, 3) array and positive
targets `h`, `w`, `get_screen` succeeds and the returned tensor has the
4-dimensional shape (1, 3, w, h): batch, channels, then the spatial axes
swapped relative to the (h, w) resize target. -/
theorem get_screen_shape (env : Env) (device : Device) (a : NpArray)
    (H0 W0 h w : ℕ)
    (henv : env.render RenderMode.rgb_array = Except.ok a)
    (hsh : a.shape = [H0, W0, 3])
    (hh : 0 < h) (hw : 0 < w) (hdev : device.available = true) :
    (get_screen env device h w).map TorchTensor.shape = Except.ok [1, 3, w, h] := by
  have hcond : ¬(h = 0 ∨ w = 0) := by omega
  rw [get_screen_eq, henv]
  simp [Except.bind, resize, if_neg hcond, TorchTensor.to, hdev, Except.map,
    TorchTensor.unsqueeze, TorchTensor.permute, torch.Tensor, resizeCore, hsh]

/-- Closed instance of `get_screen_shape` on the concrete test environment. -/
theorem get_screen_shape_witness :
    (get_screen testEnv cpuDev 5 7).map TorchTensor.shape =
      Except.ok [1, 3, 7, 5] :=
  get_screen_shape testEnv cpuDev testImage 4 6 5 7 rfl rfl (by decide)
    (by decide) rfl

/-- C2: the axis-reordering step is a pure permutation from
(height, width, channels) to (channels, width, height): on a tensor of shape
[h, w, c] the permuted tensor has shape [c, w, h] and its value at
(k, j, i) is the original value at (i, j, k), for all valid indices. -/
theorem permute_step_pure_permutation (t : TorchTensor) (h w c i j k : ℕ)
    (hsh : t.shape = [h, w, c]) (hi : i < h) (hj : j < w) (hk : k < c) :
    (t.permute [2, 1, 0]).shape = [c, w, h] ∧
    (t.permute [2, 1, 0]).val [k, j, i] = t.val [i, j, k] := by
  have hlen : t.shape.length = 3 := by rw [hsh]; rfl
  constructor
  · simp [TorchTensor.permute, hsh]
  · simp only [TorchTensor.permute, hlen]
    rfl

/-- A concrete 2 by 3 by 4 tensor with pairwise distinct values. -/
def testTensor : TorchTensor :=
  { shape := [2, 3, 4]
    dtype := DType.float64
    device := torch.cpu
    val := fun idx => ((idx.getD 0 0) * 100 + (idx.getD 1 0) * 10 + idx.getD 2 0 : ℚ) }

/-- Closed instance of `permute_step_pure_permutation` on a concrete tensor. -/
theorem permute_step_pure_permutation_witness :
    (testTensor.permute [2, 1, 0]).shape = [4, 3, 2] ∧
    (testTensor.permute [2, 1, 0]).val [3, 2, 1] = testTensor.val [1, 2, 3] :=
  permute_step_pure_permutation testTensor 2 3 4 1 2 3 rfl (by decide)
    (by decide) (by decide)

/-- C3: the resize step is invoked with anti-aliasing disabled: the array the
pipeline hands onwards is exactly the reference resize computed with the
smoothing filter off (`resizeCore` alone, no `gaussianSmooth` pre-pass), its
spatial shape is exactly (h, w) with the channel count unchanged, and
`get_screen` factors through that reference array. -/
theorem get_screen_resize_no_antialias (env : Env) (device : Device)
    (a : NpArray) (h w : ℕ)
    (henv : env.render RenderMode.rgb_array = Except.ok a)
    (hh : 0 < h) (hw : 0 < w) :
    resize a (h, w) false = Except.ok (resizeCore a h w) ∧
    (resizeCore a h w).shape = [h, w, a.shape.getD 2 0] ∧
    get_screen env device h w =
      (((torch.Tensor (resizeCore a h w)).permute [2, 1, 0]).unsqueeze 0).to
        device := by
  have hcond : ¬(h = 0 ∨ w = 0) := by omega
  refine ⟨?_, rfl, ?_⟩
  · simp [resize, if_neg hcond]
  · rw [get_screen_eq, henv]
    simp [Except.bind, resize, if_neg hcond]

/-- Closed instance of `get_screen_resize_no_antialias` on the test frame. -/
theorem get_screen_resize_no_antialias_witness :
    resize testImage (5, 7) false = Except.ok (resizeCore testImage 5 7) ∧
    (resizeCore testImage 5 7).shape = [5, 7, testImage.shape.getD 2 0] ∧
    get_screen testEnv cpuDev 5 7 =
      (((torch.Tensor (resizeCore testImage 5 7)).permute [2, 1, 0]).unsqueeze
        0).to cpuDev :=
  get_screen_resize_no_antialias testEnv cpuDev testImage 5 7 rfl (by decide)
    (by decide)

/-- C4: with a zero target height or width (the other arguments valid),
`get_screen` results in the error the resize step raises; in the `Except`
embedding an error result carries no tensor. -/
theorem get_screen_zero_dim_error (env : Env) (device : Device) (h w : ℕ)
    (a : NpArray)
    (henv : env.render RenderMode.rgb_array = Except.ok a)
    (hzero : h = 0 ∨ w = 0) :
    get_screen env device h w = Except.error (PyError.valueError 0) := by
  rw [get_screen_eq, henv]
  simp [Except.bind, resize, if_pos hzero]

/-- Closed instance of `get_screen_zero_dim_error` at height 0. -/
theorem get_screen_zero_dim_error_witness :
    get_screen testEnv cpuDev 0 7 = Except.error (PyError.valueError 0) :=
  get_screen_zero_dim_error testEnv cpuDev 0 7 testImage rfl (Or.inl rfl)

/-- C5: no normalization or clamping: every value of the returned tensor is
exactly the floating intensity the resize step produced at the permuted
index, with no rescaling applied between the resize step and the result. -/
theorem get_screen_values_unscaled (env : Env) (device : Device)
    (a : NpArray) (h w i j k : ℕ)
    (henv : env.render RenderMode.rgb_array = Except.ok a)
    (hh : 0 < h) (hw : 0 < w) (hdev : device.available = true) :
    (get_screen env device h w).map (fun t => t.val [0, k, j, i]) =
      Except.ok ((resizeCore a h w).val [i, j, k]) := by
  have hcond : ¬(h = 0 ∨ w = 0) := by omega
  rw [get_screen_eq, henv]
  simp [Except.bind, resize, if_neg hcond, TorchTensor.to, hdev, Except.map,
    TorchTensor.unsqueeze, TorchTensor.permute, torch.Tensor, resizeCore]

/-- Closed instance of `get_screen_values_unscaled` at index (0, 1, 3, 2). -/
theorem get_screen_values_unscaled_witness :
    (get_screen testEnv cpuDev 5 7).map (fun t => t.val [0, 1, 3, 2]) =
      Except.ok ((resizeCore testImage 5 7).val [2, 3, 1]) :=
  get_screen_values_unscaled testEnv cpuDev testImage 5 7 2 3 1 rfl
    (by decide) (by decide) rfl

/-- C6: determinism: two invocations with identical device and size arguments
in which the renders return the same pixel array produce equal results. -/
theorem get_screen_deterministic (env1 env2 : Env) (device : Device) (h w : ℕ)
    (hsame : env1.render RenderMode.rgb_array =
      env2.render RenderMode.rgb_array) :
    get_screen env1 device h w = get_screen env2 device h w := by
  rw [get_screen_eq, get_screen_eq, hsame]

/-- Closed instance of `get_screen_deterministic` on two environments that
agree on rgb_array renders. -/
theorem get_screen_deterministic_witness :
    get_screen testEnv cpuDev 5 7 = get_screen testEnv2 cpuDev 5 7 :=
  get_screen_deterministic testEnv testEnv2 cpuDev 5 7 rfl

/-- On a successful run the returned tensor is exactly the permuted,
unsqueezed, device-placed resize of the rendered frame. -/
theorem get_screen_ok_elim (env : Env) (device : Device) (h w : ℕ)
    (t : TorchTensor)
    (ht : get_screen env device h w = Except.ok t) :
    ∃ a, env.render RenderMode.rgb_array = Except.ok a ∧
      device.available = true ∧ t = pipeTensor a device h w := by
  rw [get_screen_eq] at ht
  cases hr : env.render RenderMode.rgb_array with
  | error e =>
    rw [hr] at ht
    exact absurd ht (by simp [Except.bind])
  | ok a =>
    rw [hr] at ht
    simp only [Except.bind] at ht
    simp only [resize] at ht
    split at ht
    · exact absurd ht (by simp [Except.bind])
    · rename_i x v heq
      split at heq
      · exact absurd heq (by simp)
      · injection heq with hv
        subst hv
        simp only [TorchTensor.to] at ht
        split at ht
        next hd =>
          injection ht with h1
          exact ⟨a, rfl, hd, h1.symm⟩
        next hd =>
          exact absurd ht (by simp)

/-- C7: every tensor a successful `get_screen` call returns resides on the
device passed as the device argument. -/
theorem get_screen_on_device (env : Env) (device : Device) (h w : ℕ)
    (t : TorchTensor)
    (ht : get_screen env device h w = Except.ok t) :
    t.device = device := by
  obtain ⟨a, -, -, htt⟩ := get_screen_ok_elim env device h w t ht
  rw [htt]
  rfl

/-- Closed instance of `get_screen_on_device` on the concrete run. -/
theorem get_screen_on_device_witness :
    (pipeTensor testImage cpuDev 5 7).device = cpuDev :=
  get_screen_on_device testEnv cpuDev 5 7 (pipeTensor testImage cpuDev 5 7)
    rfl

/-- C8: called without explicit height and width arguments, `get_screen`
uses the defaults 80 and 80, and with a renderer producing C channels the
result has shape (1, C, 80, 80). -/
theorem get_screen_default_args (env : Env) (device : Device) (a : NpArray)
    (H0 W0 C : ℕ)
    (henv : env.render RenderMode.rgb_array = Except.ok a)
    (hsh : a.shape = [H0, W0, C])
    (hdev : device.available = true) :
    get_screen env device = get_screen env device 80 80 ∧
    (get_screen env device).map TorchTensor.shape =
      Except.ok [1, C, 80, 80] := by
  refine ⟨rfl, ?_⟩
  rw [get_screen_eq, henv]
  simp [Except.bind, resize, TorchTensor.to, hdev, Except.map,
    TorchTensor.unsqueeze, TorchTensor.permute, torch.Tensor, resizeCore, hsh]

/-- Closed instance of `get_screen_default_args` on the test environment. -/
theorem get_screen_default_args_witness :
    get_screen testEnv cpuDev = get_screen testEnv cpuDev 80 80 ∧
    (get_screen testEnv cpuDev).map TorchTensor.shape =
      Except.ok [1, 3, 80, 80] :=
  get_screen_default_args testEnv cpuDev testImage 4 6 3 rfl rfl rfl

/-- C9: transparent error propagation: an error raised by the render step,
by the resize step, or by the device-placement step is returned by
`get_screen` unchanged; in the `Except` embedding an error result carries no
tensor. -/
theorem get_screen_error_propagation (env : Env) (device : Device) (h w : ℕ)
    (e : PyError)
    (hcase :
      env.render RenderMode.rgb_array = Except.error e ∨
      (∃ a, env.render RenderMode.rgb_array = Except.ok a ∧
        resize a (h, w) false = Except.error e) ∨
      (∃ a r, env.render RenderMode.rgb_array = Except.ok a ∧
        resize a (h, w) false = Except.ok r ∧
        (((torch.Tensor r).permute [2, 1, 0]).unsqueeze 0).to device =
          Except.error e)) :
    get_screen env device h w = Except.error e := by
  rw [get_screen_eq]
  rcases hcase with hr | ⟨a, hr, hs⟩ | ⟨a, r, hr, hs, htd⟩
  · rw [hr]
    rfl
  · rw [hr]
    simp [Except.bind, hs]
  · rw [hr]
    simp [Except.bind, hs, htd]

/-- Closed instance of `get_screen_error_propagation`: a render error code
is returned verbatim. -/
theorem get_screen_error_propagation_witness :
    get_screen badEnv cpuDev 5 7 = Except.error (PyError.envError 7) :=
  get_screen_error_propagation badEnv cpuDev 5 7 (PyError.envError 7)
    (Or.inl rfl)

/-- C10: every tensor a successful `get_screen` call returns carries the
tensor library's default element type, 32-bit floating point, regardless of
the element type the renderer produced. -/
theorem get_screen_dtype_float32 (env : Env) (device : Device) (h w : ℕ)
    (t : TorchTensor)
    (ht : get_screen env device h w = Except.ok t) :
    t.dtype = torch.defaultDType ∧ torch.defaultDType = DType.float32 := by
  obtain ⟨a, -, -, htt⟩ := get_screen_ok_elim env device h w t ht
  exact ⟨by rw [htt]; rfl, rfl⟩

/-- Closed instance of `get_screen_dtype_float32`: the test frame is a uint8
render, yet the returned tensor is float32. -/
theorem get_screen_dtype_float32_witness :
    (pipeTensor testImage cpuDev 5 7).dtype = torch.defaultDType ∧
    torch.defaultDType = DType.float32 :=
  get_screen_dtype_float32 testEnv cpuDev 5 7 (pipeTensor testImage cpuDev 5 7)
    rfl
